import Mathlib

/-!
# Route53 provider client of phonebook (`pkg/aws/client.go`)

A shallow embedding of the Go file `pkg/aws/client.go`:

* Go pointers (`*T`) are `Option T` (`nil` is `none`);
* a Go `error` result is `Option GoError` (`nil` is `none`);
* a run-time panic (`Targets[0]` on an empty slice) is the `Except.error`
  side of `Except Panic`;
* the network (the Route53 service behind the embedded `*route53.Client`)
  is a response function over the history of calls, and the calls made so
  far are carried explicitly as a log;
* the receiver `c *r53` and the argument `record *phonebook.DNSRecord` are
  values: the methods are modelled on non-nil pointers.
-/

namespace Phonebook.Aws

/-! ## Go run-time values -/

/-- Go `error` values.  `errorString` stands for any error produced outside
this file (it carries its `Error()` text); `wrapError` is what
`fmt.Errorf` builds when its format ends in `%w`: the formatted message and
the wrapped error. -/
inductive GoError where
  | errorString (s : String)
  | wrapError (msg : String) (err : GoError)
deriving DecidableEq, Repr

/-- The `Error()` method. -/
def GoError.Error : GoError → String
  | .errorString s => s
  | .wrapError msg _ => msg

/-- The `Unwrap()` method (`nil` for an error that wraps nothing). -/
def GoError.Unwrap : GoError → Option GoError
  | .errorString _ => none
  | .wrapError _ err => some err

/-- The call `fmt.Errorf(format ++ "%w", err)`: the message is the format
text followed by `err.Error()`, and the result wraps `err`. -/
def fmtErrorf (format : String) (err : GoError) : GoError :=
  .wrapError (format ++ err.Error) err

/-- Run-time panics of the Go program. -/
inductive Panic where
  | indexOutOfRange (index length : Nat)
deriving DecidableEq, Repr

/-- Slice indexing `xs[i]`, which panics when `i` is out of range. -/
def index {α : Type} (xs : List α) (i : Nat) : Except Panic α :=
  match xs.get? i with
  | some x => .ok x
  | none => .error (.indexOutOfRange i xs.length)

/-! ## Types of the AWS SDK (`route53/types`) that the file uses -/

/-- The SDK type `types.RRType`, a string type. -/
abbrev RRType := String

/-- The SDK constant `types.RRTypeA`. -/
def RRTypeA : RRType := "A"

/-- The SDK constant `types.RRTypeCname`. -/
def RRTypeCname : RRType := "CNAME"

/-- The SDK type `types.ChangeAction`, a string type. -/
abbrev ChangeAction := String

/-- The SDK constant `types.ChangeActionCreate`. -/
def ChangeActionCreate : ChangeAction := "CREATE"

/-- The SDK constant `types.ChangeActionDelete`. -/
def ChangeActionDelete : ChangeAction := "DELETE"

/-- The SDK type `types.AliasTarget`. -/
structure AliasTarget where
  DNSName : Option String := none
  EvaluateTargetHealth : Bool := false
  HostedZoneId : Option String := none
deriving DecidableEq, Repr

/-- The SDK type `types.ResourceRecord`. -/
structure ResourceRecord where
  Value : Option String := none
deriving DecidableEq, Repr

/-- The SDK type `types.ResourceRecordSet`, restricted to the fields this
file assigns; every field starts at its Go zero value.  The Go field
`Type` is spelled `Type_`, `Type` being reserved. -/
structure ResourceRecordSet where
  Name : Option String := none
  Type_ : RRType := ""
  AliasTarget : Option AliasTarget := none
  ResourceRecords : List ResourceRecord := []
  TTL : Option Int := none
deriving DecidableEq, Repr

/-- The SDK type `types.Change`. -/
structure Change where
  Action : ChangeAction := ""
  ResourceRecordSet : Option ResourceRecordSet := none
deriving DecidableEq, Repr

/-- The SDK type `types.ChangeBatch`. -/
structure ChangeBatch where
  Changes : List Change := []
  Comment : Option String := none
deriving DecidableEq, Repr

/-- The SDK type `route53.ChangeResourceRecordSetsInput`. -/
structure ChangeResourceRecordSetsInput where
  ChangeBatch : Option ChangeBatch := none
  HostedZoneId : Option String := none
deriving DecidableEq, Repr

/-- The SDK type `route53.ChangeResourceRecordSetsOutput`; the file discards
it, so only its identifier is kept. -/
structure ChangeResourceRecordSetsOutput where
  ChangeInfoId : Option String := none
deriving DecidableEq, Repr

/-- A `context.Context`, passed through to the SDK untouched. -/
structure Context where
  id : Nat := 0
deriving DecidableEq, Repr

/-- The SDK type `aws.Config`, produced by `config.LoadDefaultConfig`. -/
structure Config where
  Region : String := ""
deriving DecidableEq, Repr

/-- One call of `ChangeResourceRecordSets` as the service sees it. -/
structure Call where
  ctx : Context
  params : ChangeResourceRecordSetsInput
deriving DecidableEq, Repr

/-- The SDK type `route53.Client`: the zone service.  Its answer to a call
may depend on every call made before it. -/
structure Route53Client where
  respond : List Call → Call → Option ChangeResourceRecordSetsOutput × Option GoError

/-! ## Types of `api/v1alpha1` -/

/-- Modelled from the spec: the declaration of `phonebook.DNSRecordSpec` in
`api/v1alpha1` is missing; the fields are the ones the spec lists for a
declarative record and the file reads (`Name`, `RecordType`, `Targets`). -/
structure DNSRecordSpec where
  Name : String
  RecordType : String
  Targets : List String
deriving DecidableEq, Repr

/-- Modelled from the spec: the declaration of `phonebook.DNSRecord` in
`api/v1alpha1` is missing; the file reads only its `Spec`. -/
structure DNSRecord where
  Spec : DNSRecordSpec
deriving DecidableEq, Repr

/-! ## `pkg/aws/client.go` -/

def kAWSZoneID : String := "AWS_ZONE_ID"

def kAWSHostedZoneID : String := "AWS_HOSTED_ZONE_ID"

def kAWSLoadBalancerHost : String := "AWS_LOAD_BALANCER_HOST"

/-- The struct `r53`; `Client` is the embedded `*route53.Client`. -/
structure r53 where
  hostedZoneID : String
  zoneID : String
  loadBalancerHost : String
  Client : Route53Client

/-- What `NewClient` reads from outside the file: the result of
`config.LoadDefaultConfig`, the key lookup `utils.RetrieveValueFromEnvOrFile`
(its body is not part of this file, so it is a parameter), and
`route53.NewFromConfig`. -/
structure System where
  LoadDefaultConfig : Except GoError Config
  RetrieveValueFromEnvOrFile : String → Except GoError String
  NewFromConfig : Config → Route53Client

/-- The function `NewClient`, returning the Go pair `(*r53, error)`. -/
def NewClient (sys : System) : Option r53 × Option GoError :=
  match sys.LoadDefaultConfig with
  | .error err => (none, some err)
  | .ok cfg =>
    match sys.RetrieveValueFromEnvOrFile kAWSZoneID with
    | .error err => (none, some (fmtErrorf "PB#0100: Zone ID not found -- " err))
    | .ok zoneID =>
      match sys.RetrieveValueFromEnvOrFile kAWSHostedZoneID with
      | .error err => (none, some (fmtErrorf "PB#0100: Hosted Zone ID not found -- " err))
      | .ok hostedZoneID =>
        match sys.RetrieveValueFromEnvOrFile kAWSLoadBalancerHost with
        | .error err =>
          (none, some (fmtErrorf "PB#0100: Load balancer host not found -- " err))
        | .ok loadBalancerHost =>
          (some { zoneID := zoneID
                  hostedZoneID := hostedZoneID
                  loadBalancerHost := loadBalancerHost
                  Client := sys.NewFromConfig cfg }, none)

/-- The method `resourceRecordSet`: converts a `DNSRecord` to a
`ResourceRecordSet`.  Both branches read `Targets[0]`. -/
def r53.resourceRecordSet (c : r53) (record : DNSRecord) : Except Panic ResourceRecordSet :=
  let set : ResourceRecordSet :=
    { Name := some record.Spec.Name
      Type_ := record.Spec.RecordType }
  if set.Type_ = RRTypeA ∨ set.Type_ = RRTypeCname then
    match index record.Spec.Targets 0 with
    | .error p => .error p
    | .ok target =>
      .ok { set with
        AliasTarget := some { DNSName := some target, HostedZoneId := some c.hostedZoneID } }
  else
    match index record.Spec.Targets 0 with
    | .error p => .error p
    | .ok target =>
      let set : ResourceRecordSet :=
        { set with ResourceRecords := set.ResourceRecords ++ [{ Value := some target }] }
      let set : ResourceRecordSet := { set with TTL := some 60 }
      .ok set

/-- The promoted method `c.ChangeResourceRecordSets(ctx, &inputs)` of the
embedded client: the service answers from the calls made so far, and the
call is appended to the log. -/
def r53.ChangeResourceRecordSets (c : r53) (ctx : Context)
    (inputs : ChangeResourceRecordSetsInput) (log : List Call) :
    (Option ChangeResourceRecordSetsOutput × Option GoError) × List Call :=
  (c.Client.respond log ⟨ctx, inputs⟩, log ++ [⟨ctx, inputs⟩])

/-- The method `Create`.  The result is the returned `error` (or the panic
raised while the input is built), paired with the log of service calls. -/
def r53.Create (c : r53) (ctx : Context) (record : DNSRecord) (log : List Call) :
    Except Panic (Option GoError) × List Call :=
  match c.resourceRecordSet record with
  | .error p => (.error p, log)
  | .ok set =>
    let inputs : ChangeResourceRecordSetsInput :=
      { HostedZoneId := some c.zoneID
        ChangeBatch := some
          { Changes := [{ Action := ChangeActionCreate, ResourceRecordSet := some set }] } }
    let res := c.ChangeResourceRecordSets ctx inputs log
    (.ok res.1.2, res.2)

/-- The method `Delete`. -/
def r53.Delete (c : r53) (ctx : Context) (record : DNSRecord) (log : List Call) :
    Except Panic (Option GoError) × List Call :=
  match c.resourceRecordSet record with
  | .error p => (.error p, log)
  | .ok set =>
    let inputs : ChangeResourceRecordSetsInput :=
      { HostedZoneId := some c.zoneID
        ChangeBatch := some
          { Changes := [{ Action := ChangeActionDelete, ResourceRecordSet := some set }] } }
    let res := c.ChangeResourceRecordSets ctx inputs log
    (.ok res.1.2, res.2)

/-! ## Example inputs -/

/-- A zone service that accepts every call. -/
def acceptAll : Route53Client :=
  { respond := fun _ _ => (some { ChangeInfoId := some "C1" }, none) }

/-- A zone service that refuses every call with one fixed error. -/
def refuseAll : Route53Client :=
  { respond := fun _ _ => (none, some (.errorString "InvalidChangeBatch: not found")) }

/-- A client whose zone and alias hosted zone differ. -/
def exampleClient : r53 :=
  { hostedZoneID := "Z123"
    zoneID := "ZONE1"
    loadBalancerHost := "lb.example.com"
    Client := acceptAll }

/-- The same zone context in front of a refusing service. -/
def refusedClient : r53 :=
  { hostedZoneID := "Z123"
    zoneID := "ZONE1"
    loadBalancerHost := "lb.example.com"
    Client := refuseAll }

def wwwRecord : DNSRecord :=
  { Spec := { Name := "www.example.com", RecordType := "A", Targets := ["lb.example.com"] } }

def wwwRecordTwoTargets : DNSRecord :=
  { Spec :=
      { Name := "www.example.com"
        RecordType := "A"
        Targets := ["lb.example.com", "lb2.example.com"] } }

def txtRecord : DNSRecord :=
  { Spec := { Name := "txt.example.com", RecordType := "TXT", Targets := ["v=spf1 -all"] } }

def txtRecordTwoTargets : DNSRecord :=
  { Spec :=
      { Name := "txt.example.com"
        RecordType := "TXT"
        Targets := ["v=spf1 -all", "v=spf1 +all"] } }

def unknownTypeRecord : DNSRecord :=
  { Spec := { Name := "x.example.com", RecordType := "BOGUS", Targets := ["value"] } }

def emptyAliasRecord : DNSRecord :=
  { Spec := { Name := "www.example.com", RecordType := "CNAME", Targets := [] } }

def emptyTxtRecord : DNSRecord :=
  { Spec := { Name := "txt.example.com", RecordType := "TXT", Targets := [] } }

/-- An example key lookup over a fixed table, standing in for
`utils.RetrieveValueFromEnvOrFile`: a key outside the table is an error. -/
def lookupIn (table : List (String × String)) (key : String) : Except GoError String :=
  match table.lookup key with
  | some value => .ok value
  | none => .error (.errorString (key ++ " not found"))

/-- The error of an SDK configuration that cannot be loaded. -/
def configError : GoError := .errorString "failed to load SDK configuration"

/-- All three keys resolve and the SDK configuration loads. -/
def completeSystem : System :=
  { LoadDefaultConfig := .ok { Region := "eu-west-1" }
    RetrieveValueFromEnvOrFile := lookupIn
      [("AWS_ZONE_ID", "ZONE1"), ("AWS_HOSTED_ZONE_ID", "Z123"),
        ("AWS_LOAD_BALANCER_HOST", "lb.example.com")]
    NewFromConfig := fun _ => acceptAll }

/-- The SDK configuration loads; `AWS_HOSTED_ZONE_ID` is missing. -/
def noHostedZoneSystem : System :=
  { LoadDefaultConfig := .ok { Region := "eu-west-1" }
    RetrieveValueFromEnvOrFile := lookupIn
      [("AWS_ZONE_ID", "ZONE1"), ("AWS_LOAD_BALANCER_HOST", "lb.example.com")]
    NewFromConfig := fun _ => acceptAll }

/-- The SDK configuration fails to load; all three keys resolve. -/
def brokenConfigSystem : System :=
  { LoadDefaultConfig := .error configError
    RetrieveValueFromEnvOrFile := lookupIn
      [("AWS_ZONE_ID", "ZONE1"), ("AWS_HOSTED_ZONE_ID", "Z123"),
        ("AWS_LOAD_BALANCER_HOST", "lb.example.com")]
    NewFromConfig := fun _ => acceptAll }

/-- The SDK configuration fails to load; only `AWS_ZONE_ID` is missing. -/
def brokenConfigNoZoneSystem : System :=
  { LoadDefaultConfig := .error configError
    RetrieveValueFromEnvOrFile := lookupIn
      [("AWS_HOSTED_ZONE_ID", "Z123"), ("AWS_LOAD_BALANCER_HOST", "lb.example.com")]
    NewFromConfig := fun _ => acceptAll }

/-- The SDK configuration fails to load; only `AWS_HOSTED_ZONE_ID` is
missing. -/
def brokenConfigNoHostedZoneSystem : System :=
  { LoadDefaultConfig := .error configError
    RetrieveValueFromEnvOrFile := lookupIn
      [("AWS_ZONE_ID", "ZONE1"), ("AWS_LOAD_BALANCER_HOST", "lb.example.com")]
    NewFromConfig := fun _ => acceptAll }

/-! ## Shared lemmas -/

/-- Two lists that differ at position 9 stay different whatever is appended
to them. -/
theorem append_ne_of_ninth_ne (p q x y : List Char) (a b : Char)
    (hp : p.get? 9 = some a) (hq : q.get? 9 = some b) (hab : a ≠ b) :
    p ++ x ≠ q ++ y := by
  intro h
  have lp : 9 < p.length := by
    rcases Nat.lt_or_ge 9 p.length with hlt | hge
    · exact hlt
    · rw [List.get?_eq_none.mpr hge] at hp
      cases hp
  have lq : 9 < q.length := by
    rcases Nat.lt_or_ge 9 q.length with hlt | hge
    · exact hlt
    · rw [List.get?_eq_none.mpr hge] at hq
      cases hq
  have h9 := congrArg (fun l => l.get? 9) h
  simp only [List.get?_eq_getElem?] at h9 hp hq
  rw [List.getElem?_append_left lp, List.getElem?_append_left lq, hp, hq] at h9
  exact hab (Option.some.inj h9)

/-- The same fact for the messages `fmt.Errorf` builds. -/
theorem fmtErrorf_ne_of_ninth_ne (f g : String) (a b : Char)
    (hf : f.data.get? 9 = some a) (hg : g.data.get? 9 = some b) (hab : a ≠ b)
    (e1 e2 : GoError) : fmtErrorf f e1 ≠ fmtErrorf g e2 := by
  intro h
  unfold fmtErrorf at h
  injection h with hmsg _
  have hdata := congrArg String.data hmsg
  simp only [String.data_append] at hdata
  exact append_ne_of_ninth_ne _ _ _ _ a b hf hg hab hdata

theorem NewClient_of_config_error (sys : System) (err : GoError)
    (hcfg : sys.LoadDefaultConfig = .error err) : NewClient sys = (none, some err) := by
  unfold NewClient
  rw [hcfg]

theorem NewClient_of_zone_error (sys : System) (cfg : Config) (err : GoError)
    (hcfg : sys.LoadDefaultConfig = .ok cfg)
    (hzone : sys.RetrieveValueFromEnvOrFile kAWSZoneID = .error err) :
    NewClient sys = (none, some (fmtErrorf "PB#0100: Zone ID not found -- " err)) := by
  unfold NewClient
  rw [hcfg]
  simp only [hzone]

theorem NewClient_of_hosted_error (sys : System) (cfg : Config) (zone : String)
    (err : GoError) (hcfg : sys.LoadDefaultConfig = .ok cfg)
    (hzone : sys.RetrieveValueFromEnvOrFile kAWSZoneID = .ok zone)
    (hhosted : sys.RetrieveValueFromEnvOrFile kAWSHostedZoneID = .error err) :
    NewClient sys = (none, some (fmtErrorf "PB#0100: Hosted Zone ID not found -- " err)) := by
  unfold NewClient
  rw [hcfg]
  simp only [hzone, hhosted]

theorem NewClient_of_balancer_error (sys : System) (cfg : Config) (zone hosted : String)
    (err : GoError) (hcfg : sys.LoadDefaultConfig = .ok cfg)
    (hzone : sys.RetrieveValueFromEnvOrFile kAWSZoneID = .ok zone)
    (hhosted : sys.RetrieveValueFromEnvOrFile kAWSHostedZoneID = .ok hosted)
    (hlb : sys.RetrieveValueFromEnvOrFile kAWSLoadBalancerHost = .error err) :
    NewClient sys =
      (none, some (fmtErrorf "PB#0100: Load balancer host not found -- " err)) := by
  unfold NewClient
  rw [hcfg]
  simp only [hzone, hhosted, hlb]

theorem NewClient_of_all_ok (sys : System) (cfg : Config) (zone hosted lb : String)
    (hcfg : sys.LoadDefaultConfig = .ok cfg)
    (hzone : sys.RetrieveValueFromEnvOrFile kAWSZoneID = .ok zone)
    (hhosted : sys.RetrieveValueFromEnvOrFile kAWSHostedZoneID = .ok hosted)
    (hlb : sys.RetrieveValueFromEnvOrFile kAWSLoadBalancerHost = .ok lb) :
    NewClient sys =
      (some { zoneID := zone, hostedZoneID := hosted, loadBalancerHost := lb,
              Client := sys.NewFromConfig cfg }, none) := by
  unfold NewClient
  rw [hcfg]
  simp only [hzone, hhosted, hlb]

theorem index_zero_eq_head {α : Type} (xs : List α) (h : xs ≠ []) :
    index xs 0 = .ok (xs.head h) := by
  cases xs with
  | nil => exact absurd rfl h
  | cons x rest => rfl

theorem index_zero_nil {α : Type} : index ([] : List α) 0 = .error (.indexOutOfRange 0 0) := rfl

theorem resourceRecordSet_alias_eq (c : r53) (record : DNSRecord)
    (hT : record.Spec.Targets ≠ [])
    (hA : record.Spec.RecordType = RRTypeA ∨ record.Spec.RecordType = RRTypeCname) :
    c.resourceRecordSet record = .ok
      { Name := some record.Spec.Name
        Type_ := record.Spec.RecordType
        AliasTarget := some
          { DNSName := some (record.Spec.Targets.head hT)
            EvaluateTargetHealth := false
            HostedZoneId := some c.hostedZoneID }
        ResourceRecords := []
        TTL := none } := by
  unfold r53.resourceRecordSet
  simp only [if_pos hA, index_zero_eq_head _ hT]

theorem resourceRecordSet_literal_eq (c : r53) (record : DNSRecord)
    (hT : record.Spec.Targets ≠ [])
    (hA : ¬ (record.Spec.RecordType = RRTypeA ∨ record.Spec.RecordType = RRTypeCname)) :
    c.resourceRecordSet record = .ok
      { Name := some record.Spec.Name
        Type_ := record.Spec.RecordType
        AliasTarget := none
        ResourceRecords := [{ Value := some (record.Spec.Targets.head hT) }]
        TTL := some 60 } := by
  unfold r53.resourceRecordSet
  simp only [if_neg hA, index_zero_eq_head _ hT, List.nil_append]

theorem resourceRecordSet_nil (c : r53) (record : DNSRecord)
    (hT : record.Spec.Targets = []) :
    c.resourceRecordSet record = .error (.indexOutOfRange 0 0) := by
  unfold r53.resourceRecordSet
  simp only [hT, index_zero_nil]
  split <;> rfl

theorem resourceRecordSet_ok (c : r53) (record : DNSRecord)
    (hT : record.Spec.Targets ≠ []) :
    ∃ set, c.resourceRecordSet record = .ok set := by
  by_cases hA : record.Spec.RecordType = RRTypeA ∨ record.Spec.RecordType = RRTypeCname
  · exact ⟨_, resourceRecordSet_alias_eq c record hT hA⟩
  · exact ⟨_, resourceRecordSet_literal_eq c record hT hA⟩

/-- The request `Create` and `Delete` build around a converted record set:
a one-entry change batch for the client's `zoneID`. -/
theorem Create_of_ok (c : r53) (ctx : Context) (record : DNSRecord) (log : List Call)
    (set : ResourceRecordSet) (hset : c.resourceRecordSet record = .ok set) :
    c.Create ctx record log =
      (.ok (c.Client.respond log ⟨ctx,
          { HostedZoneId := some c.zoneID
            ChangeBatch := some
              { Changes := [{ Action := ChangeActionCreate, ResourceRecordSet := some set }]
                Comment := none } }⟩).2,
        log ++ [⟨ctx,
          { HostedZoneId := some c.zoneID
            ChangeBatch := some
              { Changes := [{ Action := ChangeActionCreate, ResourceRecordSet := some set }]
                Comment := none } }⟩]) := by
  unfold r53.Create
  rw [hset]
  rfl

theorem Delete_of_ok (c : r53) (ctx : Context) (record : DNSRecord) (log : List Call)
    (set : ResourceRecordSet) (hset : c.resourceRecordSet record = .ok set) :
    c.Delete ctx record log =
      (.ok (c.Client.respond log ⟨ctx,
          { HostedZoneId := some c.zoneID
            ChangeBatch := some
              { Changes := [{ Action := ChangeActionDelete, ResourceRecordSet := some set }]
                Comment := none } }⟩).2,
        log ++ [⟨ctx,
          { HostedZoneId := some c.zoneID
            ChangeBatch := some
              { Changes := [{ Action := ChangeActionDelete, ResourceRecordSet := some set }]
                Comment := none } }⟩]) := by
  unfold r53.Delete
  rw [hset]
  rfl

/-! ## The record converter -/

/-- C1: for every client and every record with non-empty `Targets` whose
`RecordType` is `A` or `CNAME`, `resourceRecordSet` returns a record set with
the input's name and type, an alias binding whose `DNSName` is `Targets[0]`
and whose `HostedZoneId` is the client's `hostedZoneID`, no TTL and an empty
literal value list. -/
theorem resourceRecordSet_alias (c : r53) (record : DNSRecord)
    (hT : record.Spec.Targets ≠ [])
    (hA : record.Spec.RecordType = RRTypeA ∨ record.Spec.RecordType = RRTypeCname) :
    ∃ set, c.resourceRecordSet record = .ok set ∧
      set.Name = some record.Spec.Name ∧
      set.Type_ = record.Spec.RecordType ∧
      set.AliasTarget = some
        { DNSName := some (record.Spec.Targets.head hT)
          EvaluateTargetHealth := false
          HostedZoneId := some c.hostedZoneID } ∧
      set.TTL = none ∧
      set.ResourceRecords = [] :=
  ⟨_, resourceRecordSet_alias_eq c record hT hA, rfl, rfl, rfl, rfl, rfl⟩

theorem resourceRecordSet_alias_witness :
    ∃ set, exampleClient.resourceRecordSet wwwRecord = .ok set ∧
      set.Name = some "www.example.com" ∧
      set.Type_ = "A" ∧
      set.AliasTarget = some
        { DNSName := some "lb.example.com"
          EvaluateTargetHealth := false
          HostedZoneId := some "Z123" } ∧
      set.TTL = none ∧
      set.ResourceRecords = [] :=
  resourceRecordSet_alias exampleClient wwwRecord (by decide) (Or.inl rfl)

/-- C2: for every client and every record with non-empty `Targets` whose
`RecordType` is neither `A` nor `CNAME` (any other string, recognised or
not), `resourceRecordSet` returns a record set with the input's name and
type, exactly one literal value equal to `Targets[0]`, TTL 60 and no alias
binding. -/
theorem resourceRecordSet_literal (c : r53) (record : DNSRecord)
    (hT : record.Spec.Targets ≠ [])
    (hA : record.Spec.RecordType ≠ RRTypeA ∧ record.Spec.RecordType ≠ RRTypeCname) :
    ∃ set, c.resourceRecordSet record = .ok set ∧
      set.Name = some record.Spec.Name ∧
      set.Type_ = record.Spec.RecordType ∧
      set.ResourceRecords = [{ Value := some (record.Spec.Targets.head hT) }] ∧
      set.TTL = some 60 ∧
      set.AliasTarget = none :=
  ⟨_, resourceRecordSet_literal_eq c record hT (fun h => h.elim hA.1 hA.2),
    rfl, rfl, rfl, rfl, rfl⟩

theorem resourceRecordSet_literal_witness :
    (∃ set, exampleClient.resourceRecordSet txtRecord = .ok set ∧
      set.Name = some "txt.example.com" ∧
      set.Type_ = "TXT" ∧
      set.ResourceRecords = [{ Value := some "v=spf1 -all" }] ∧
      set.TTL = some 60 ∧
      set.AliasTarget = none) ∧
    (∃ set, exampleClient.resourceRecordSet unknownTypeRecord = .ok set ∧
      set.Name = some "x.example.com" ∧
      set.Type_ = "BOGUS" ∧
      set.ResourceRecords = [{ Value := some "value" }] ∧
      set.TTL = some 60 ∧
      set.AliasTarget = none) :=
  ⟨resourceRecordSet_literal exampleClient txtRecord (by decide) (by decide),
    resourceRecordSet_literal exampleClient unknownTypeRecord (by decide) (by decide)⟩

/-- C7: the conversion returns a record set for every record with at least
one target, whatever its record type, and raises the index-out-of-range
panic (index 0, length 0) for every record with empty `Targets`, whatever
its record type. -/
theorem resourceRecordSet_total_iff_targets (c : r53) (record : DNSRecord) :
    (record.Spec.Targets ≠ [] → ∃ set, c.resourceRecordSet record = .ok set) ∧
    (record.Spec.Targets = [] →
      c.resourceRecordSet record = .error (.indexOutOfRange 0 0)) :=
  ⟨resourceRecordSet_ok c record, resourceRecordSet_nil c record⟩

theorem resourceRecordSet_total_iff_targets_witness :
    (∃ set, exampleClient.resourceRecordSet unknownTypeRecord = .ok set) ∧
    exampleClient.resourceRecordSet emptyAliasRecord = .error (.indexOutOfRange 0 0) ∧
    exampleClient.resourceRecordSet emptyTxtRecord = .error (.indexOutOfRange 0 0) :=
  ⟨(resourceRecordSet_total_iff_targets exampleClient unknownTypeRecord).1 (by decide),
    (resourceRecordSet_total_iff_targets exampleClient emptyAliasRecord).2 rfl,
    (resourceRecordSet_total_iff_targets exampleClient emptyTxtRecord).2 rfl⟩

/-- C8: conversion is deterministic: two calls on equal records with
non-empty `Targets`, by clients holding equal zone contexts (whatever
service each is connected to), return the same record set. -/
theorem resourceRecordSet_deterministic (c1 c2 : r53) (r1 r2 : DNSRecord)
    (_hzone : c1.zoneID = c2.zoneID) (hhosted : c1.hostedZoneID = c2.hostedZoneID)
    (_hlb : c1.loadBalancerHost = c2.loadBalancerHost) (hrec : r1 = r2)
    (hT : r1.Spec.Targets ≠ []) :
    ∃ set, c1.resourceRecordSet r1 = .ok set ∧ c2.resourceRecordSet r2 = .ok set := by
  subst hrec
  obtain ⟨set, hset⟩ := resourceRecordSet_ok c1 r1 hT
  refine ⟨set, hset, ?_⟩
  rw [← hset]
  unfold r53.resourceRecordSet
  rw [hhosted]

theorem resourceRecordSet_deterministic_witness :
    ∃ set, exampleClient.resourceRecordSet wwwRecord = .ok set ∧
      refusedClient.resourceRecordSet wwwRecord = .ok set :=
  resourceRecordSet_deterministic exampleClient refusedClient wwwRecord wwwRecord
    rfl rfl rfl rfl (by decide)

/-- C9: only the first target is used: two records with the same name, the
same record type and the same first target are converted to the same record
set, whatever the rest of their `Targets`, in the alias and in the literal
branch alike. -/
theorem resourceRecordSet_first_target_only (c : r53) (r1 r2 : DNSRecord)
    (hName : r1.Spec.Name = r2.Spec.Name)
    (hType : r1.Spec.RecordType = r2.Spec.RecordType)
    (h1 : r1.Spec.Targets ≠ []) (h2 : r2.Spec.Targets ≠ [])
    (hFirst : r1.Spec.Targets.head h1 = r2.Spec.Targets.head h2) :
    ∃ set, c.resourceRecordSet r1 = .ok set ∧ c.resourceRecordSet r2 = .ok set := by
  by_cases hA : r1.Spec.RecordType = RRTypeA ∨ r1.Spec.RecordType = RRTypeCname
  · refine ⟨_, resourceRecordSet_alias_eq c r1 h1 hA, ?_⟩
    rw [resourceRecordSet_alias_eq c r2 h2 (hType ▸ hA), hName, hType, hFirst]
  · refine ⟨_, resourceRecordSet_literal_eq c r1 h1 hA, ?_⟩
    rw [resourceRecordSet_literal_eq c r2 h2 (hType ▸ hA), hName, hType, hFirst]

theorem resourceRecordSet_first_target_only_witness :
    (∃ set, exampleClient.resourceRecordSet wwwRecord = .ok set ∧
      exampleClient.resourceRecordSet wwwRecordTwoTargets = .ok set) ∧
    (∃ set, exampleClient.resourceRecordSet txtRecord = .ok set ∧
      exampleClient.resourceRecordSet txtRecordTwoTargets = .ok set) :=
  ⟨resourceRecordSet_first_target_only exampleClient wwwRecord wwwRecordTwoTargets
      rfl rfl (by decide) (by decide) rfl,
    resourceRecordSet_first_target_only exampleClient txtRecord txtRecordTwoTargets
      rfl rfl (by decide) (by decide) rfl⟩

/-! ## The zone client -/

/-- C3: for every client and every record with non-empty `Targets`, `Create`
adds exactly one call to the log of the zone service: its zone identifier is
the client's `zoneID` and its change batch has exactly one entry, with
action `CREATE` and the record set `resourceRecordSet` returns for the
record; `Delete` does the same with action `DELETE`. -/
theorem Create_Delete_submit_one_request (c : r53) (ctx : Context) (record : DNSRecord)
    (log : List Call) (hT : record.Spec.Targets ≠ []) :
    ∃ set, c.resourceRecordSet record = .ok set ∧
      (c.Create ctx record log).2 = log ++ [⟨ctx,
        { HostedZoneId := some c.zoneID
          ChangeBatch := some
            { Changes := [{ Action := ChangeActionCreate, ResourceRecordSet := some set }]
              Comment := none } }⟩] ∧
      (c.Delete ctx record log).2 = log ++ [⟨ctx,
        { HostedZoneId := some c.zoneID
          ChangeBatch := some
            { Changes := [{ Action := ChangeActionDelete, ResourceRecordSet := some set }]
              Comment := none } }⟩] := by
  obtain ⟨set, hset⟩ := resourceRecordSet_ok c record hT
  refine ⟨set, hset, ?_, ?_⟩
  · rw [Create_of_ok c ctx record log set hset]
  · rw [Delete_of_ok c ctx record log set hset]

theorem Create_Delete_submit_one_request_witness :
    ∃ set, exampleClient.resourceRecordSet txtRecord = .ok set ∧
      (exampleClient.Create {} txtRecord []).2 = [] ++ [⟨{},
        { HostedZoneId := some "ZONE1"
          ChangeBatch := some
            { Changes := [{ Action := "CREATE", ResourceRecordSet := some set }]
              Comment := none } }⟩] ∧
      (exampleClient.Delete {} txtRecord []).2 = [] ++ [⟨{},
        { HostedZoneId := some "ZONE1"
          ChangeBatch := some
            { Changes := [{ Action := "DELETE", ResourceRecordSet := some set }]
              Comment := none } }⟩] :=
  Create_Delete_submit_one_request exampleClient {} txtRecord [] (by decide)

/-- C4: for every client and every record with non-empty `Targets`, `Create`
and `Delete` each return exactly the error result the zone service gave for
the one request they submitted: the same error value when the service
failed, `nil` when it succeeded. -/
theorem Create_Delete_return_service_result (c : r53) (ctx : Context) (record : DNSRecord)
    (log : List Call) (hT : record.Spec.Targets ≠ []) :
    (∃ req, (c.Create ctx record log).2 = log ++ [req] ∧
      (c.Create ctx record log).1 = .ok (c.Client.respond log req).2) ∧
    (∃ req, (c.Delete ctx record log).2 = log ++ [req] ∧
      (c.Delete ctx record log).1 = .ok (c.Client.respond log req).2) := by
  obtain ⟨set, hset⟩ := resourceRecordSet_ok c record hT
  rw [Create_of_ok c ctx record log set hset, Delete_of_ok c ctx record log set hset]
  exact ⟨⟨_, rfl, rfl⟩, ⟨_, rfl, rfl⟩⟩

theorem Create_Delete_return_service_result_witness :
    ((∃ req, (refusedClient.Create {} wwwRecord []).2 = [] ++ [req] ∧
        (refusedClient.Create {} wwwRecord []).1 =
          .ok (some (.errorString "InvalidChangeBatch: not found"))) ∧
      (∃ req, (refusedClient.Delete {} wwwRecord []).2 = [] ++ [req] ∧
        (refusedClient.Delete {} wwwRecord []).1 =
          .ok (some (.errorString "InvalidChangeBatch: not found")))) ∧
    ((∃ req, (exampleClient.Create {} wwwRecord []).2 = [] ++ [req] ∧
        (exampleClient.Create {} wwwRecord []).1 = .ok none) ∧
      (∃ req, (exampleClient.Delete {} wwwRecord []).2 = [] ++ [req] ∧
        (exampleClient.Delete {} wwwRecord []).1 = .ok none)) :=
  ⟨Create_Delete_return_service_result refusedClient {} wwwRecord [] (by decide),
    Create_Delete_return_service_result exampleClient {} wwwRecord [] (by decide)⟩

/-- C10: `Create` and `Delete` differ only in the action tag: for every
client and every record with non-empty `Targets`, each submits one request,
the request of `Delete` is the request of `Create` with the action of its
single entry changed from `CREATE` to `DELETE` (same zone identifier, same
record set), and each returns the error result the service gave for its own
request. -/
theorem Create_Delete_symmetric (c : r53) (ctx : Context) (record : DNSRecord)
    (log : List Call) (hT : record.Spec.Targets ≠ []) :
    ∃ reqC reqD entry,
      (c.Create ctx record log).2 = log ++ [reqC] ∧
      (c.Delete ctx record log).2 = log ++ [reqD] ∧
      reqC.params.ChangeBatch = some { Changes := [entry], Comment := none } ∧
      entry.Action = ChangeActionCreate ∧
      reqD = { reqC with
        params := { reqC.params with
          ChangeBatch := some
            { Changes := [{ entry with Action := ChangeActionDelete }], Comment := none } } } ∧
      (c.Create ctx record log).1 = .ok (c.Client.respond log reqC).2 ∧
      (c.Delete ctx record log).1 = .ok (c.Client.respond log reqD).2 := by
  obtain ⟨set, hset⟩ := resourceRecordSet_ok c record hT
  rw [Create_of_ok c ctx record log set hset, Delete_of_ok c ctx record log set hset]
  exact ⟨_, _, _, rfl, rfl, rfl, rfl, rfl, rfl, rfl⟩

theorem Create_Delete_symmetric_witness :
    ∃ reqC reqD entry,
      (exampleClient.Create {} wwwRecord []).2 = [] ++ [reqC] ∧
      (exampleClient.Delete {} wwwRecord []).2 = [] ++ [reqD] ∧
      reqC.params.ChangeBatch = some { Changes := [entry], Comment := none } ∧
      entry.Action = ChangeActionCreate ∧
      reqD = { reqC with
        params := { reqC.params with
          ChangeBatch := some
            { Changes := [{ entry with Action := ChangeActionDelete }], Comment := none } } } ∧
      (exampleClient.Create {} wwwRecord []).1 = .ok (acceptAll.respond [] reqC).2 ∧
      (exampleClient.Delete {} wwwRecord []).1 = .ok (acceptAll.respond [] reqD).2 :=
  Create_Delete_symmetric exampleClient {} wwwRecord [] (by decide)

/-! ## Client construction -/

/-- C5, as stated, fails: when the SDK configuration cannot be loaded,
`NewClient` returns that error before it looks up any key, so a system
missing only `AWS_ZONE_ID` and a system missing only `AWS_HOSTED_ZONE_ID`
get the same error, which wraps nothing and names no key. -/
theorem NewClient_config_error_names_no_key :
    brokenConfigNoZoneSystem.RetrieveValueFromEnvOrFile kAWSZoneID =
      .error (.errorString "AWS_ZONE_ID not found") ∧
    brokenConfigNoHostedZoneSystem.RetrieveValueFromEnvOrFile kAWSZoneID = .ok "ZONE1" ∧
    brokenConfigNoHostedZoneSystem.RetrieveValueFromEnvOrFile kAWSHostedZoneID =
      .error (.errorString "AWS_HOSTED_ZONE_ID not found") ∧
    (NewClient brokenConfigNoZoneSystem).2 = some configError ∧
    (NewClient brokenConfigNoHostedZoneSystem).2 = some configError ∧
    configError.Unwrap = none ∧
    configError.Error = "failed to load SDK configuration" := by
  exact ⟨rfl, rfl, rfl, rfl, rfl, rfl, rfl⟩

/-- C5, amended: for every system in which at least one of the three keys
cannot be resolved, `NewClient` returns an error and no client.  When the
SDK configuration fails to load, the error is that failure, unchanged.
When it loads, the error wraps the lookup error of the first unresolved key
in the order `AWS_ZONE_ID`, `AWS_HOSTED_ZONE_ID`, `AWS_LOAD_BALANCER_HOST`
under that key's own message, and the errors of the three cases are
pairwise distinct whatever the lookup errors are. -/
theorem NewClient_missing_key (sys : System)
    (hmiss : ∃ key,
      (key = kAWSZoneID ∨ key = kAWSHostedZoneID ∨ key = kAWSLoadBalancerHost) ∧
      ∃ e, sys.RetrieveValueFromEnvOrFile key = .error e) :
    (NewClient sys).1 = none ∧
    (∃ err, (NewClient sys).2 = some err) ∧
    (∀ err, sys.LoadDefaultConfig = .error err → (NewClient sys).2 = some err) ∧
    (∀ cfg, sys.LoadDefaultConfig = .ok cfg →
      (∃ e, sys.RetrieveValueFromEnvOrFile kAWSZoneID = .error e ∧
        (NewClient sys).2 = some (fmtErrorf "PB#0100: Zone ID not found -- " e)) ∨
      (∃ zone e, sys.RetrieveValueFromEnvOrFile kAWSZoneID = .ok zone ∧
        sys.RetrieveValueFromEnvOrFile kAWSHostedZoneID = .error e ∧
        (NewClient sys).2 = some (fmtErrorf "PB#0100: Hosted Zone ID not found -- " e)) ∨
      (∃ zone hosted e, sys.RetrieveValueFromEnvOrFile kAWSZoneID = .ok zone ∧
        sys.RetrieveValueFromEnvOrFile kAWSHostedZoneID = .ok hosted ∧
        sys.RetrieveValueFromEnvOrFile kAWSLoadBalancerHost = .error e ∧
        (NewClient sys).2 =
          some (fmtErrorf "PB#0100: Load balancer host not found -- " e))) ∧
    (∀ e1 e2 e3 : GoError,
      fmtErrorf "PB#0100: Zone ID not found -- " e1 ≠
        fmtErrorf "PB#0100: Hosted Zone ID not found -- " e2 ∧
      fmtErrorf "PB#0100: Zone ID not found -- " e1 ≠
        fmtErrorf "PB#0100: Load balancer host not found -- " e3 ∧
      fmtErrorf "PB#0100: Hosted Zone ID not found -- " e2 ≠
        fmtErrorf "PB#0100: Load balancer host not found -- " e3) := by
  have hcases : ∀ cfg, sys.LoadDefaultConfig = .ok cfg →
      (∃ e, sys.RetrieveValueFromEnvOrFile kAWSZoneID = .error e ∧
        NewClient sys = (none, some (fmtErrorf "PB#0100: Zone ID not found -- " e))) ∨
      (∃ zone e, sys.RetrieveValueFromEnvOrFile kAWSZoneID = .ok zone ∧
        sys.RetrieveValueFromEnvOrFile kAWSHostedZoneID = .error e ∧
        NewClient sys = (none, some (fmtErrorf "PB#0100: Hosted Zone ID not found -- " e))) ∨
      (∃ zone hosted e, sys.RetrieveValueFromEnvOrFile kAWSZoneID = .ok zone ∧
        sys.RetrieveValueFromEnvOrFile kAWSHostedZoneID = .ok hosted ∧
        sys.RetrieveValueFromEnvOrFile kAWSLoadBalancerHost = .error e ∧
        NewClient sys =
          (none, some (fmtErrorf "PB#0100: Load balancer host not found -- " e))) := by
    intro cfg hcfg
    cases hz : sys.RetrieveValueFromEnvOrFile kAWSZoneID with
    | error e => exact Or.inl ⟨e, rfl, NewClient_of_zone_error sys cfg e hcfg hz⟩
    | ok zone =>
      cases hh : sys.RetrieveValueFromEnvOrFile kAWSHostedZoneID with
      | error e =>
        exact Or.inr (Or.inl ⟨zone, e, rfl, rfl, NewClient_of_hosted_error sys cfg zone e hcfg hz hh⟩)
      | ok hosted =>
        cases hl : sys.RetrieveValueFromEnvOrFile kAWSLoadBalancerHost with
        | error e =>
          exact Or.inr (Or.inr ⟨zone, hosted, e, rfl, rfl, rfl,
            NewClient_of_balancer_error sys cfg zone hosted e hcfg hz hh hl⟩)
        | ok lb =>
          obtain ⟨key, hkey, e, he⟩ := hmiss
          rcases hkey with rfl | rfl | rfl
          · rw [hz] at he; cases he
          · rw [hh] at he; cases he
          · rw [hl] at he; cases he
  have hpair : ∃ err, NewClient sys = (none, some err) := by
    cases hcfg : sys.LoadDefaultConfig with
    | error err => exact ⟨err, NewClient_of_config_error sys err hcfg⟩
    | ok cfg =>
      rcases hcases cfg hcfg with ⟨e, _, h⟩ | ⟨_, e, _, _, h⟩ | ⟨_, _, e, _, _, _, h⟩
      · exact ⟨_, h⟩
      · exact ⟨_, h⟩
      · exact ⟨_, h⟩
  obtain ⟨err, herr⟩ := hpair
  refine ⟨by rw [herr], ⟨err, by rw [herr]⟩, ?_, ?_, ?_⟩
  · intro err2 hcfg
    rw [NewClient_of_config_error sys err2 hcfg]
  · intro cfg hcfg
    rcases hcases cfg hcfg with ⟨e, h1, h⟩ | ⟨z, e, h1, h2, h⟩ | ⟨z, hd, e, h1, h2, h3, h⟩
    · exact Or.inl ⟨e, h1, by rw [h]⟩
    · exact Or.inr (Or.inl ⟨z, e, h1, h2, by rw [h]⟩)
    · exact Or.inr (Or.inr ⟨z, hd, e, h1, h2, h3, by rw [h]⟩)
  · intro e1 e2 e3
    exact ⟨fmtErrorf_ne_of_ninth_ne _ _ 'Z' 'H' (by decide) (by decide) (by decide) e1 e2,
      fmtErrorf_ne_of_ninth_ne _ _ 'Z' 'L' (by decide) (by decide) (by decide) e1 e3,
      fmtErrorf_ne_of_ninth_ne _ _ 'H' 'L' (by decide) (by decide) (by decide) e2 e3⟩

theorem NewClient_missing_key_witness :
    (∃ key,
      (key = kAWSZoneID ∨ key = kAWSHostedZoneID ∨ key = kAWSLoadBalancerHost) ∧
      ∃ e, noHostedZoneSystem.RetrieveValueFromEnvOrFile key = .error e) ∧
    (NewClient noHostedZoneSystem).1 = none ∧
    (NewClient noHostedZoneSystem).2 =
      some (.wrapError "PB#0100: Hosted Zone ID not found -- AWS_HOSTED_ZONE_ID not found"
        (.errorString "AWS_HOSTED_ZONE_ID not found")) :=
  have hmiss : ∃ key,
      (key = kAWSZoneID ∨ key = kAWSHostedZoneID ∨ key = kAWSLoadBalancerHost) ∧
      ∃ e, noHostedZoneSystem.RetrieveValueFromEnvOrFile key = .error e :=
    ⟨kAWSHostedZoneID, Or.inr (Or.inl rfl), .errorString "AWS_HOSTED_ZONE_ID not found",
      rfl⟩
  ⟨hmiss, (NewClient_missing_key noHostedZoneSystem hmiss).1, rfl⟩

/-- C6, as stated, fails: with all three keys resolving, `NewClient` still
returns an error and no client when the SDK configuration cannot be
loaded. -/
theorem NewClient_config_error_despite_keys :
    brokenConfigSystem.RetrieveValueFromEnvOrFile kAWSZoneID = .ok "ZONE1" ∧
    brokenConfigSystem.RetrieveValueFromEnvOrFile kAWSHostedZoneID = .ok "Z123" ∧
    brokenConfigSystem.RetrieveValueFromEnvOrFile kAWSLoadBalancerHost =
      .ok "lb.example.com" ∧
    (NewClient brokenConfigSystem).1 = none ∧
    (NewClient brokenConfigSystem).2 = some configError := by
  exact ⟨rfl, rfl, rfl, rfl, rfl⟩

/-- C6, amended: for every system in which the SDK configuration loads and
all three keys resolve, `NewClient` returns no error and a client whose
`zoneID` is the value of `AWS_ZONE_ID`, whose `hostedZoneID` is the value of
`AWS_HOSTED_ZONE_ID` and whose `loadBalancerHost` is the value of
`AWS_LOAD_BALANCER_HOST`, connected to the service built from the loaded
configuration. -/
theorem NewClient_resolved (sys : System) (cfg : Config) (zone hosted lb : String)
    (hcfg : sys.LoadDefaultConfig = .ok cfg)
    (hzone : sys.RetrieveValueFromEnvOrFile kAWSZoneID = .ok zone)
    (hhosted : sys.RetrieveValueFromEnvOrFile kAWSHostedZoneID = .ok hosted)
    (hlb : sys.RetrieveValueFromEnvOrFile kAWSLoadBalancerHost = .ok lb) :
    kAWSZoneID = "AWS_ZONE_ID" ∧ kAWSHostedZoneID = "AWS_HOSTED_ZONE_ID" ∧
    kAWSLoadBalancerHost = "AWS_LOAD_BALANCER_HOST" ∧
    (NewClient sys).2 = none ∧
    ∃ c, (NewClient sys).1 = some c ∧
      c.zoneID = zone ∧ c.hostedZoneID = hosted ∧ c.loadBalancerHost = lb ∧
      c.Client = sys.NewFromConfig cfg := by
  rw [NewClient_of_all_ok sys cfg zone hosted lb hcfg hzone hhosted hlb]
  exact ⟨rfl, rfl, rfl, rfl, _, rfl, rfl, rfl, rfl, rfl⟩

theorem NewClient_resolved_witness :
    kAWSZoneID = "AWS_ZONE_ID" ∧ kAWSHostedZoneID = "AWS_HOSTED_ZONE_ID" ∧
    kAWSLoadBalancerHost = "AWS_LOAD_BALANCER_HOST" ∧
    (NewClient completeSystem).2 = none ∧
    ∃ c, (NewClient completeSystem).1 = some c ∧
      c.zoneID = "ZONE1" ∧ c.hostedZoneID = "Z123" ∧
      c.loadBalancerHost = "lb.example.com" ∧
      c.Client = completeSystem.NewFromConfig { Region := "eu-west-1" } :=
  NewClient_resolved completeSystem { Region := "eu-west-1" } "ZONE1" "Z123" "lb.example.com"
    rfl rfl rfl rfl

end Phonebook.Aws
